import Mathlib

/-!
Verification of the SatelliteOrbitPredictor core.

Shallow embedding of the propagation and close-approach analysis subsystem
(`src/orbit_predictor.py`, `src/collision_detector.py`).

Modelling conventions:
* Python floats are modelled as real numbers (`ℝ`); `np.sqrt` is `Real.sqrt`.
* Times (UTC instants and durations) are real numbers measured in hours;
  the calendar conversion done by skyfield's `ts.utc` is the identity here.
* The analytic SGP4 propagation is performed by the external skyfield
  library (`satellite.at`), not by repository code, so it enters the
  embedding as an explicit function parameter
  `at_ : EarthSatellite → ℝ → Vec3` consumed exactly where the source
  calls `satellite.at(t)`.
* Python's ambient clock `datetime.utcnow()` is threaded as explicit
  parameters (`start_time`, `now1`, `now2`, `now3`), one per call site.
* A Python method raising an exception is modelled with `Except` /
  an explicit error constructor; a method that cannot raise is total.
-/

namespace SatOrbit

/-- Position in kilometres, 3-D Earth-centred coordinates. -/
abbrev Vec3 : Type := ℝ × ℝ × ℝ

/-- One satellite record as produced by skyfield's `load.tle_file`:
a name, the element-set epoch, and the raw orbital-element payload.
Repository code never inspects the payload itself; only the external
propagation model consumes it. -/
structure EarthSatellite where
  name : String
  epoch : ℝ
  elements : List ℝ

/-- The `self.satellites` dictionary of `SatelliteOrbitPredictor`,
keyed by satellite name. -/
abbrev Catalog : Type := String → Option EarthSatellite

/-- Initial empty dictionary `self.satellites` from `SatelliteOrbitPredictor.__init__`. -/
def emptyCatalog : Catalog := fun _ => none

/-- Dictionary assignment `self.satellites[sat.name] = sat`. -/
def catInsert (c : Catalog) (sat : EarthSatellite) : Catalog :=
  fun k => if k = sat.name then some sat else c k

/-- Model of `SatelliteOrbitPredictor.load_tle_file`: the raw text is parsed by the
external skyfield `load.tle_file` into the record list `sats`; the method
then stores every record by name into the existing dictionary
(`for sat in satellites: self.satellites[sat.name] = sat`).
Returns the updated catalog state. -/
def load_tle_file (c : Catalog) (sats : List EarthSatellite) : Catalog :=
  sats.foldl catInsert c

/-- Model of `SatelliteOrbitPredictor.predict_position`: look the name up in
`self.satellites`, raising `ValueError` when absent, and otherwise return
the propagated position `satellite.at(t).position.km`. -/
noncomputable def predict_position (at_ : EarthSatellite → ℝ → Vec3) (c : Catalog)
    (satellite_name : String) (time_utc : ℝ) : Except String Vec3 :=
  match c satellite_name with
  | none => .error ("Satellite " ++ satellite_name ++ " not found")
  | some sat => .ok (at_ sat time_utc)

/-- Model of `np.linspace a b n`: `n` evenly spaced values from `a` to `b`
inclusive (empty for `n = 0`, `[a]` for `n = 1`). -/
noncomputable def linspace (a b : ℝ) (n : ℕ) : List ℝ :=
  if n = 0 then []
  else if n = 1 then [a]
  else (List.range n).map (fun i : ℕ => a + (b - a) * (i : ℝ) / ((n : ℝ) - 1))

/-- Model of `SatelliteOrbitPredictor.generate_orbit_path`: raise `ValueError` for an
unknown name; sample `np.linspace(0, duration_hours, points)` offsets from
`start_time` (the method's own `datetime.utcnow()`), propagate each, and
return the position list.  For `points = 0` the position array is empty and
the slice `positions[:, 0]` raises `IndexError`, modelled as an error. -/
noncomputable def generate_orbit_path (at_ : EarthSatellite → ℝ → Vec3) (c : Catalog)
    (satellite_name : String) (duration_hours : ℝ) (points : ℕ)
    (start_time : ℝ) : Except String (List Vec3) :=
  match c satellite_name with
  | none => .error ("Satellite " ++ satellite_name ++ " not found")
  | some sat =>
      if points = 0 then .error "too many indices for array"
      else .ok ((linspace 0 duration_hours points).map
        (fun delta => at_ sat (start_time + delta)))

/-- State of a `CollisionDetector`: a configured warning distance and the Earth
radius constant set in `__init__`. -/
structure CollisionDetector where
  warning_distance_km : ℝ
  earth_radius : ℝ

/-- Constructor `CollisionDetector(warning_distance_km)`: `__init__` also sets
`self.earth_radius = 6371`. -/
def CollisionDetector.make (warning_distance_km : ℝ) : CollisionDetector :=
  { warning_distance_km := warning_distance_km, earth_radius := 6371 }

/-- Model of `CollisionDetector.calculate_distance`: Euclidean 3-D distance
`np.sqrt((x2-x1)**2 + (y2-y1)**2 + (z2-z1)**2)`. -/
noncomputable def calculate_distance (pos1 pos2 : Vec3) : ℝ :=
  Real.sqrt ((pos2.1 - pos1.1) ^ 2 + (pos2.2.1 - pos1.2.1) ^ 2
    + (pos2.2.2 - pos1.2.2) ^ 2)

open Classical in
/-- Helper for `np.argmin`: scan the remaining list (whose head sits at
index `i`), keeping the first index attaining the least value seen. -/
noncomputable def argminAux : List ℝ → ℕ → ℕ → ℝ → ℕ
  | [], _, bestIdx, _ => bestIdx
  | d :: rest, i, bestIdx, best =>
      if d < best then argminAux rest (i + 1) i d
      else argminAux rest (i + 1) bestIdx best

/-- Model of `np.argmin`: index of the first occurrence of the minimum value
(`0` on the empty array, where numpy instead raises). -/
noncomputable def np_argmin : List ℝ → ℕ
  | [] => 0
  | d :: rest => argminAux rest 1 0 d

/-- The successful analysis dictionary returned by
`CollisionDetector.analyze_close_approach`, one field per key. -/
structure CloseApproachData where
  satellite_1 : String
  satellite_2 : String
  min_distance_km : ℝ
  closest_approach_time : ℝ
  relative_velocity_km_s : ℝ
  collision_risk : String
  warning_periods : ℕ
  all_distances : List ℝ
  times : List ℝ

/-- Result of `analyze_close_approach`: either the `{'error': ...}`
dictionary (which carries no numeric fields) or the full result
dictionary. -/
inductive AnalysisResult where
  | error (msg : String)
  | ok (data : CloseApproachData)

/-- Whether an analysis result is the `{'error': ...}` dictionary. -/
def AnalysisResult.isError : AnalysisResult → Bool
  | .error _ => true
  | .ok _ => false

open Classical in
/-- Model of `CollisionDetector.analyze_close_approach`.  The two
`generate_orbit_path` calls and the analyzer's own time bookkeeping each
read `datetime.utcnow()`, threaded here as `now1`, `now2`, `now3`.  Any
exception from orbit generation is caught and turned into the error
dictionary; the body never assigns to `self`, so the detector state is
returned unchanged alongside the result. -/
noncomputable def analyze_close_approach (det : CollisionDetector)
    (at_ : EarthSatellite → ℝ → Vec3) (c : Catalog)
    (sat1_name sat2_name : String) (duration_hours : ℝ) (points : ℕ)
    (now1 now2 now3 : ℝ) : AnalysisResult × CollisionDetector :=
  match generate_orbit_path at_ c sat1_name duration_hours points now1 with
  | .error e => (.error ("Could not generate orbits: " ++ e), det)
  | .ok p1 =>
    match generate_orbit_path at_ c sat2_name duration_hours points now2 with
    | .error e => (.error ("Could not generate orbits: " ++ e), det)
    | .ok p2 =>
      let distances := List.zipWith calculate_distance p1 p2
      let times := (List.range p1.length).map
        (fun i : ℕ => now3 + duration_hours * (i : ℝ) / (points : ℝ))
      let min_distance_idx := np_argmin distances
      let min_distance := distances.getD min_distance_idx 0
      let closest_time := times.getD min_distance_idx 0
      let warning_indices := (List.range distances.length).filter
        (fun i => distances.getD i 0 < det.warning_distance_km)
      let relative_velocity :=
        if 0 < min_distance_idx ∧ min_distance_idx < distances.length - 1 then
          |distances.getD (min_distance_idx + 1) 0
            - distances.getD (min_distance_idx - 1) 0|
            / (2 * (duration_hours / points * 3600))
        else 0
      (.ok {
        satellite_1 := sat1_name
        satellite_2 := sat2_name
        min_distance_km := min_distance
        closest_approach_time := closest_time
        relative_velocity_km_s := relative_velocity
        collision_risk :=
          if min_distance < 1 then "HIGH"
          else if min_distance < 5 then "MEDIUM" else "LOW"
        warning_periods := warning_indices.length
        all_distances := distances
        times := times }, det)

open Classical in
/-- Risk tiers exactly as the specification words them: strictly below
1 km is HIGH, at least 1 km and strictly below 5 km is MEDIUM, otherwise
LOW.  Written from the spec, to be compared with the classification
computed inside `analyze_close_approach`. -/
noncomputable def specRisk (min_distance : ℝ) : String :=
  if min_distance < 1 then "HIGH"
  else if min_distance < 5 then "MEDIUM" else "LOW"

/-! ## Concrete fixtures used in witnesses and counterexamples -/

/-- A first concrete satellite record. -/
def satA : EarthSatellite := { name := "SAT-A", epoch := 0, elements := [] }

/-- A second concrete satellite record. -/
def satB : EarthSatellite := { name := "SAT-B", epoch := 0, elements := [] }

/-- Catalog holding `satA` and `satB`, obtained by one TLE load into an
empty predictor. -/
def twoSatCatalog : Catalog := load_tle_file emptyCatalog [satA, satB]

open Classical in
/-- Propagation model realising the specification scenario distances
`[100, 50, 2, 60, 120]` km: object A sits at the origin and object B on
the x-axis at the tabulated distance at sample times `0, 1, 2, 3, 4`
(window of 4 h sampled at 5 points). -/
noncomputable def scenarioModel (sat : EarthSatellite) (t : ℝ) : Vec3 :=
  if sat.name = "SAT-B" then
    (if t = 0 then 100 else if t = 1 then 50 else if t = 2 then 2
      else if t = 3 then 60 else 120, 0, 0)
  else (0, 0, 0)

/-! ## Helper lemmas -/

lemma twoSatCatalog_A : twoSatCatalog "SAT-A" = some satA := by
  rfl

lemma twoSatCatalog_B : twoSatCatalog "SAT-B" = some satB := by
  rfl

lemma twoSatCatalog_none : twoSatCatalog "NO-SUCH-SAT" = none := by
  rfl

lemma calculate_distance_self (p : Vec3) : calculate_distance p p = 0 := by
  simp [calculate_distance]

lemma calculate_distance_comm (p q : Vec3) :
    calculate_distance p q = calculate_distance q p := by
  unfold calculate_distance
  ring_nf

lemma calculate_distance_nonneg (p q : Vec3) :
    0 ≤ calculate_distance p q := Real.sqrt_nonneg _

lemma calculate_distance_x (d : ℝ) :
    calculate_distance (0, 0, 0) (d, 0, 0) = |d| := by
  unfold calculate_distance
  simp
  rw [← Real.sqrt_sq_eq_abs]

lemma zipWith_dist_self (p : List Vec3) :
    List.zipWith calculate_distance p p = List.replicate p.length 0 := by
  induction p with
  | nil => rfl
  | cons x xs ih => simp [List.zipWith, calculate_distance_self, ih, List.replicate]

lemma argminAux_of_not_lt (l : List ℝ) (best : ℝ)
    (h : ∀ x ∈ l, ¬ x < best) :
    ∀ i b, argminAux l i b best = b := by
  induction l with
  | nil => intro i b; rfl
  | cons d rest ih =>
      intro i b
      have hd : ¬ d < best := h d (List.mem_cons_self d rest)
      have hrest : ∀ x ∈ rest, ¬ x < best := fun x hx => h x (List.mem_cons_of_mem d hx)
      rw [argminAux, if_neg hd, ih hrest]

lemma np_argmin_replicate_zero (n : ℕ) : np_argmin (List.replicate n 0) = 0 := by
  cases n with
  | zero => rfl
  | succ m =>
      rw [List.replicate_succ, np_argmin]
      exact argminAux_of_not_lt _ _ (by
        intro x hx
        rw [List.eq_of_mem_replicate hx]
        exact lt_irrefl 0) 1 0

lemma argminAux_lt (l : List ℝ) :
    ∀ i b best, b < i → argminAux l i b best < i + l.length := by
  induction l with
  | nil => intro i b best h; simpa using h.trans_le (Nat.le_refl i)
  | cons d rest ih =>
      intro i b best h
      rw [argminAux]
      by_cases hd : d < best
      · rw [if_pos hd]
        have := ih (i + 1) i d (Nat.lt_succ_self i)
        simpa [Nat.add_comm, Nat.add_assoc, Nat.add_left_comm] using this
      · rw [if_neg hd]
        have := ih (i + 1) b best (h.trans (Nat.lt_succ_self i))
        simpa [Nat.add_comm, Nat.add_assoc, Nat.add_left_comm] using this

lemma np_argmin_lt_length (l : List ℝ) (h : l ≠ []) :
    np_argmin l < l.length := by
  cases l with
  | nil => exact absurd rfl h
  | cons d rest =>
      rw [np_argmin]
      simpa [Nat.add_comm] using argminAux_lt rest 1 0 d Nat.zero_lt_one

lemma linspace_length (a b : ℝ) (n : ℕ) : (linspace a b n).length = n := by
  unfold linspace
  by_cases h0 : n = 0
  · simp [h0]
  · by_cases h1 : n = 1
    · simp [h0, h1]
    · rw [if_neg h0, if_neg h1, List.length_map, List.length_range]

open Classical in
/-- The successful branch of `analyze_close_approach`, factored out so the
result dictionary can be reasoned about as a function of the two sampled
position lists. -/
noncomputable def okData (det : CollisionDetector) (s1 s2 : String)
    (dur : ℝ) (pts : ℕ) (n3 : ℝ) (p1 p2 : List Vec3) : CloseApproachData :=
  let distances := List.zipWith calculate_distance p1 p2
  let times := (List.range p1.length).map
    (fun i : ℕ => n3 + dur * (i : ℝ) / (pts : ℝ))
  let min_distance_idx := np_argmin distances
  let min_distance := distances.getD min_distance_idx 0
  let closest_time := times.getD min_distance_idx 0
  let warning_indices := (List.range distances.length).filter
    (fun i => distances.getD i 0 < det.warning_distance_km)
  let relative_velocity :=
    if 0 < min_distance_idx ∧ min_distance_idx < distances.length - 1 then
      |distances.getD (min_distance_idx + 1) 0
        - distances.getD (min_distance_idx - 1) 0|
        / (2 * (dur / pts * 3600))
    else 0
  { satellite_1 := s1
    satellite_2 := s2
    min_distance_km := min_distance
    closest_approach_time := closest_time
    relative_velocity_km_s := relative_velocity
    collision_risk :=
      if min_distance < 1 then "HIGH"
      else if min_distance < 5 then "MEDIUM" else "LOW"
    warning_periods := warning_indices.length
    all_distances := distances
    times := times }

lemma analyze_eq_okData (det : CollisionDetector)
    (at_ : EarthSatellite → ℝ → Vec3) (c : Catalog) (s1 s2 : String)
    (dur : ℝ) (pts : ℕ) (n1 n2 n3 : ℝ) (p1 p2 : List Vec3)
    (h1 : generate_orbit_path at_ c s1 dur pts n1 = .ok p1)
    (h2 : generate_orbit_path at_ c s2 dur pts n2 = .ok p2) :
    analyze_close_approach det at_ c s1 s2 dur pts n1 n2 n3 =
      (AnalysisResult.ok (okData det s1 s2 dur pts n3 p1 p2), det) := by
  unfold analyze_close_approach okData
  rw [h1, h2]

lemma analyze_error_left (det : CollisionDetector)
    (at_ : EarthSatellite → ℝ → Vec3) (c : Catalog) (s1 s2 : String)
    (dur : ℝ) (pts : ℕ) (n1 n2 n3 : ℝ) (e : String)
    (h1 : generate_orbit_path at_ c s1 dur pts n1 = .error e) :
    analyze_close_approach det at_ c s1 s2 dur pts n1 n2 n3 =
      (AnalysisResult.error ("Could not generate orbits: " ++ e), det) := by
  unfold analyze_close_approach
  rw [h1]

lemma analyze_error_right (det : CollisionDetector)
    (at_ : EarthSatellite → ℝ → Vec3) (c : Catalog) (s1 s2 : String)
    (dur : ℝ) (pts : ℕ) (n1 n2 n3 : ℝ) (p1 : List Vec3) (e : String)
    (h1 : generate_orbit_path at_ c s1 dur pts n1 = .ok p1)
    (h2 : generate_orbit_path at_ c s2 dur pts n2 = .error e) :
    analyze_close_approach det at_ c s1 s2 dur pts n1 n2 n3 =
      (AnalysisResult.error ("Could not generate orbits: " ++ e), det) := by
  unfold analyze_close_approach
  rw [h1, h2]

lemma analyze_cases (det : CollisionDetector)
    (at_ : EarthSatellite → ℝ → Vec3) (c : Catalog) (s1 s2 : String)
    (dur : ℝ) (pts : ℕ) (n1 n2 n3 : ℝ) (r : CloseApproachData)
    (h : (analyze_close_approach det at_ c s1 s2 dur pts n1 n2 n3).1 =
      AnalysisResult.ok r) :
    ∃ p1 p2, generate_orbit_path at_ c s1 dur pts n1 = .ok p1 ∧
      generate_orbit_path at_ c s2 dur pts n2 = .ok p2 ∧
      r = okData det s1 s2 dur pts n3 p1 p2 := by
  cases h1 : generate_orbit_path at_ c s1 dur pts n1 with
  | error e =>
      rw [analyze_error_left det at_ c s1 s2 dur pts n1 n2 n3 e h1] at h
      exact absurd h (by simp)
  | ok p1 =>
      cases h2 : generate_orbit_path at_ c s2 dur pts n2 with
      | error e =>
          rw [analyze_error_right det at_ c s1 s2 dur pts n1 n2 n3 p1 e h1 h2] at h
          exact absurd h (by simp)
      | ok p2 =>
          refine ⟨p1, p2, rfl, rfl, ?_⟩
          rw [analyze_eq_okData det at_ c s1 s2 dur pts n1 n2 n3 p1 p2 h1 h2] at h
          have h' : AnalysisResult.ok (okData det s1 s2 dur pts n3 p1 p2) =
              AnalysisResult.ok r := h
          injection h' with h''
          exact h''.symm

lemma linspace_0_4_5 : linspace 0 4 5 = [0, 1, 2, 3, 4] := by
  unfold linspace
  norm_num [List.range_succ]

lemma scenarioModel_A (t : ℝ) : scenarioModel satA t = (0, 0, 0) := by
  simp [scenarioModel, satA]

lemma scenario_gen_A :
    generate_orbit_path scenarioModel twoSatCatalog "SAT-A" 4 5 0 =
      .ok [(0, 0, 0), (0, 0, 0), (0, 0, 0), (0, 0, 0), (0, 0, 0)] := by
  unfold generate_orbit_path
  rw [twoSatCatalog_A]
  simp [linspace_0_4_5, scenarioModel_A]

lemma scenario_gen_B :
    generate_orbit_path scenarioModel twoSatCatalog "SAT-B" 4 5 0 =
      .ok [(100, 0, 0), (50, 0, 0), (2, 0, 0), (60, 0, 0), (120, 0, 0)] := by
  unfold generate_orbit_path
  rw [twoSatCatalog_B]
  simp only [linspace_0_4_5]
  norm_num [scenarioModel, satB]

lemma scenario_distances :
    List.zipWith calculate_distance
      [((0 : ℝ), (0 : ℝ), (0 : ℝ)), (0, 0, 0), (0, 0, 0), (0, 0, 0), (0, 0, 0)]
      [((100 : ℝ), (0 : ℝ), (0 : ℝ)), (50, 0, 0), (2, 0, 0), (60, 0, 0), (120, 0, 0)] =
      [100, 50, 2, 60, 120] := by
  simp only [List.zipWith, calculate_distance_x]
  norm_num [abs_of_nonneg]

lemma scenario_argmin : np_argmin [(100 : ℝ), 50, 2, 60, 120] = 2 := by
  norm_num [np_argmin, argminAux]

/-- The full result dictionary produced on the specification scenario:
distances `[100, 50, 2, 60, 120]` km over a 4-hour window of 5 samples
with the default 10 km warning distance. -/
noncomputable def scenarioData : CloseApproachData :=
  { satellite_1 := "SAT-A"
    satellite_2 := "SAT-B"
    min_distance_km := 2
    closest_approach_time := 8 / 5
    relative_velocity_km_s := 1 / 576
    collision_risk := "MEDIUM"
    warning_periods := 1
    all_distances := [100, 50, 2, 60, 120]
    times := [0, 4 / 5, 8 / 5, 12 / 5, 16 / 5] }

lemma scenario_okData :
    okData (CollisionDetector.make 10) "SAT-A" "SAT-B" 4 5 0
      [(0, 0, 0), (0, 0, 0), (0, 0, 0), (0, 0, 0), (0, 0, 0)]
      [(100, 0, 0), (50, 0, 0), (2, 0, 0), (60, 0, 0), (120, 0, 0)] =
      scenarioData := by
  unfold okData scenarioData
  simp only [scenario_distances, scenario_argmin]
  norm_num [CollisionDetector.make, List.getD, List.range_succ, List.filter]

lemma scenario_eval :
    (analyze_close_approach (CollisionDetector.make 10) scenarioModel
      twoSatCatalog "SAT-A" "SAT-B" 4 5 0 0 0).1 =
      AnalysisResult.ok scenarioData := by
  rw [analyze_eq_okData (CollisionDetector.make 10) scenarioModel twoSatCatalog
    "SAT-A" "SAT-B" 4 5 0 0 0 _ _ scenario_gen_A scenario_gen_B,
    scenario_okData]

lemma okData_satellite_1 (det : CollisionDetector) (s1 s2 : String) (dur : ℝ)
    (pts : ℕ) (n3 : ℝ) (p1 p2 : List Vec3) :
    (okData det s1 s2 dur pts n3 p1 p2).satellite_1 = s1 := rfl

lemma okData_satellite_2 (det : CollisionDetector) (s1 s2 : String) (dur : ℝ)
    (pts : ℕ) (n3 : ℝ) (p1 p2 : List Vec3) :
    (okData det s1 s2 dur pts n3 p1 p2).satellite_2 = s2 := rfl

lemma okData_all_distances (det : CollisionDetector) (s1 s2 : String) (dur : ℝ)
    (pts : ℕ) (n3 : ℝ) (p1 p2 : List Vec3) :
    (okData det s1 s2 dur pts n3 p1 p2).all_distances =
      List.zipWith calculate_distance p1 p2 := rfl

lemma okData_times (det : CollisionDetector) (s1 s2 : String) (dur : ℝ)
    (pts : ℕ) (n3 : ℝ) (p1 p2 : List Vec3) :
    (okData det s1 s2 dur pts n3 p1 p2).times =
      (List.range p1.length).map
        (fun i : ℕ => n3 + dur * (i : ℝ) / (pts : ℝ)) := rfl

lemma okData_min_distance (det : CollisionDetector) (s1 s2 : String) (dur : ℝ)
    (pts : ℕ) (n3 : ℝ) (p1 p2 : List Vec3) :
    (okData det s1 s2 dur pts n3 p1 p2).min_distance_km =
      (List.zipWith calculate_distance p1 p2).getD
        (np_argmin (List.zipWith calculate_distance p1 p2)) 0 := rfl

lemma okData_risk_spec (det : CollisionDetector) (s1 s2 : String) (dur : ℝ)
    (pts : ℕ) (n3 : ℝ) (p1 p2 : List Vec3) :
    (okData det s1 s2 dur pts n3 p1 p2).collision_risk =
      specRisk (okData det s1 s2 dur pts n3 p1 p2).min_distance_km := rfl

/-! ## Claims -/

/-- C1: for every close-approach analysis result without an error, the risk
classification is determined solely by the minimum distance through the
fixed thresholds `< 1 km → HIGH`, `< 5 km → MEDIUM`, otherwise `LOW`; and
on the scenario with paired sample distances `[100, 50, 2, 60, 120]` km the
minimum distance is 2 km at index 2 and the risk is MEDIUM. -/
theorem C1_risk_classification :
    (∀ (det : CollisionDetector) (at_ : EarthSatellite → ℝ → Vec3)
        (c : Catalog) (s1 s2 : String) (dur : ℝ) (pts : ℕ) (n1 n2 n3 : ℝ)
        (r : CloseApproachData),
        (analyze_close_approach det at_ c s1 s2 dur pts n1 n2 n3).1 =
          AnalysisResult.ok r →
        r.collision_risk = specRisk r.min_distance_km) ∧
    (analyze_close_approach (CollisionDetector.make 10) scenarioModel
        twoSatCatalog "SAT-A" "SAT-B" 4 5 0 0 0).1 =
      AnalysisResult.ok scenarioData ∧
    scenarioData.all_distances = [100, 50, 2, 60, 120] ∧
    scenarioData.min_distance_km = 2 ∧
    np_argmin scenarioData.all_distances = 2 ∧
    scenarioData.collision_risk = "MEDIUM" := by
  refine ⟨?_, scenario_eval, rfl, rfl, ?_, rfl⟩
  · intro det at_ c s1 s2 dur pts n1 n2 n3 r h
    obtain ⟨p1, p2, h1, h2, hr⟩ :=
      analyze_cases det at_ c s1 s2 dur pts n1 n2 n3 r h
    subst hr
    exact okData_risk_spec det s1 s2 dur pts n3 p1 p2
  · exact scenario_argmin

/-- Witness for C1: the threshold law applied at the concrete scenario. -/
theorem C1_risk_classification_witness :
    scenarioData.collision_risk = specRisk scenarioData.min_distance_km :=
  C1_risk_classification.1 (CollisionDetector.make 10) scenarioModel
    twoSatCatalog "SAT-A" "SAT-B" 4 5 0 0 0 scenarioData
    C1_risk_classification.2.1

lemma generate_ok_length (at_ : EarthSatellite → ℝ → Vec3) (c : Catalog)
    (s : String) (dur : ℝ) (pts : ℕ) (t : ℝ) (p : List Vec3)
    (h : generate_orbit_path at_ c s dur pts t = .ok p) : p.length = pts := by
  unfold generate_orbit_path at h
  cases hc : c s with
  | none => simp [hc] at h
  | some sat =>
      simp only [hc] at h
      by_cases h0 : pts = 0
      · rw [if_pos h0] at h; exact absurd h (by simp)
      · rw [if_neg h0] at h
        injection h with h
        rw [← h, List.length_map, linspace_length]

lemma okData_swap (det : CollisionDetector) (s1 s2 : String) (dur : ℝ)
    (pts : ℕ) (n3 : ℝ) (p1 p2 : List Vec3) (hlen : p1.length = p2.length) :
    okData det s2 s1 dur pts n3 p2 p1 =
      { okData det s1 s2 dur pts n3 p1 p2 with
          satellite_1 := s2, satellite_2 := s1 } := by
  unfold okData
  rw [List.zipWith_comm_of_comm calculate_distance calculate_distance_comm p2 p1,
    hlen]

/-- C5: close-approach analysis is symmetric in its two objects — analysing
the same pair of sampled trajectories in either order yields results with
identical numeric fields and only the object labels swapped.  The two
`generate_orbit_path` sampling instants travel with their trajectories
(`n1` with `s1`, `n2` with `s2`), so both orders analyse the same pair of
trajectories. -/
theorem C5_symmetry (det : CollisionDetector)
    (at_ : EarthSatellite → ℝ → Vec3) (c : Catalog) (s1 s2 : String)
    (dur : ℝ) (pts : ℕ) (n1 n2 n3 : ℝ) (r : CloseApproachData)
    (h : (analyze_close_approach det at_ c s1 s2 dur pts n1 n2 n3).1 =
      AnalysisResult.ok r) :
    (analyze_close_approach det at_ c s2 s1 dur pts n2 n1 n3).1 =
      AnalysisResult.ok
        { r with satellite_1 := s2, satellite_2 := s1 } := by
  obtain ⟨p1, p2, h1, h2, hr⟩ :=
    analyze_cases det at_ c s1 s2 dur pts n1 n2 n3 r h
  subst hr
  rw [analyze_eq_okData det at_ c s2 s1 dur pts n2 n1 n3 p2 p1 h2 h1]
  rw [okData_swap det s1 s2 dur pts n3 p1 p2
    ((generate_ok_length at_ c s1 dur pts n1 p1 h1).trans
      (generate_ok_length at_ c s2 dur pts n2 p2 h2).symm)]

/-- Witness for C5: the symmetry law applied at the concrete scenario. -/
theorem C5_symmetry_witness :
    (analyze_close_approach (CollisionDetector.make 10) scenarioModel
      twoSatCatalog "SAT-B" "SAT-A" 4 5 0 0 0).1 =
      AnalysisResult.ok
        { scenarioData with satellite_1 := "SAT-B", satellite_2 := "SAT-A" } :=
  C5_symmetry (CollisionDetector.make 10) scenarioModel twoSatCatalog
    "SAT-A" "SAT-B" 4 5 0 0 0 scenarioData scenario_eval

lemma okData_velocity (det : CollisionDetector) (s1 s2 : String) (dur : ℝ)
    (pts : ℕ) (n3 : ℝ) (p1 p2 : List Vec3) :
    (okData det s1 s2 dur pts n3 p1 p2).relative_velocity_km_s =
      if 0 < np_argmin (List.zipWith calculate_distance p1 p2) ∧
          np_argmin (List.zipWith calculate_distance p1 p2) <
            (List.zipWith calculate_distance p1 p2).length - 1 then
        |(List.zipWith calculate_distance p1 p2).getD
            (np_argmin (List.zipWith calculate_distance p1 p2) + 1) 0
          - (List.zipWith calculate_distance p1 p2).getD
            (np_argmin (List.zipWith calculate_distance p1 p2) - 1) 0|
          / (2 * (dur / pts * 3600))
      else 0 := rfl

lemma okData_warning_periods (det : CollisionDetector) (s1 s2 : String)
    (dur : ℝ) (pts : ℕ) (n3 : ℝ) (p1 p2 : List Vec3) :
    (okData det s1 s2 dur pts n3 p1 p2).warning_periods =
      ((List.range (List.zipWith calculate_distance p1 p2).length).filter
        (fun i => (List.zipWith calculate_distance p1 p2).getD i 0 <
          det.warning_distance_km)).length := rfl

lemma generate_ok_of_mem (at_ : EarthSatellite → ℝ → Vec3) (c : Catalog)
    (name : String) (dur : ℝ) (pts : ℕ) (t : ℝ) (sat : EarthSatellite)
    (hc : c name = some sat) (h0 : pts ≠ 0) :
    generate_orbit_path at_ c name dur pts t =
      .ok ((linspace 0 dur pts).map (fun delta => at_ sat (t + delta))) := by
  unfold generate_orbit_path
  rw [hc]
  simp [h0]

lemma getD_replicate_zero (n i : ℕ) :
    (List.replicate n (0 : ℝ)).getD i 0 = 0 := by
  rw [List.getD_eq_getElem?_getD, List.getElem?_replicate]
  split <;> rfl

/-- C6: analysing a trajectory against an identical copy of itself (same
catalogued object, same sampling instant for both `generate_orbit_path`
calls, hence pairwise-equal samples) reports minimum distance 0, risk HIGH
and relative velocity 0. -/
theorem C6_self_approach (det : CollisionDetector)
    (at_ : EarthSatellite → ℝ → Vec3) (c : Catalog) (name : String)
    (dur : ℝ) (pts : ℕ) (nc n3 : ℝ) (sat : EarthSatellite)
    (hc : c name = some sat) (h0 : pts ≠ 0) :
    ∃ r, (analyze_close_approach det at_ c name name dur pts nc nc n3).1 =
        AnalysisResult.ok r ∧
      r.min_distance_km = 0 ∧ r.collision_risk = "HIGH" ∧
      r.relative_velocity_km_s = 0 := by
  have hg := generate_ok_of_mem at_ c name dur pts nc sat hc h0
  set p := (linspace 0 dur pts).map (fun delta => at_ sat (nc + delta)) with hp
  refine ⟨okData det name name dur pts n3 p p, ?_, ?_, ?_, ?_⟩
  · rw [analyze_eq_okData det at_ c name name dur pts nc nc n3 p p hg hg]
  · rw [okData_min_distance, zipWith_dist_self, np_argmin_replicate_zero,
      getD_replicate_zero]
  · rw [okData_risk_spec, okData_min_distance, zipWith_dist_self,
      np_argmin_replicate_zero, getD_replicate_zero]
    unfold specRisk
    rw [if_pos (by norm_num)]
  · rw [okData_velocity, zipWith_dist_self, np_argmin_replicate_zero]
    rw [if_neg (by simp)]

/-- Witness for C6: a concrete object analysed against itself. -/
theorem C6_self_approach_witness :
    twoSatCatalog "SAT-A" = some satA ∧ (5 : ℕ) ≠ 0 ∧
    (∃ r, (analyze_close_approach (CollisionDetector.make 10) scenarioModel
        twoSatCatalog "SAT-A" "SAT-A" 4 5 0 0 0).1 = AnalysisResult.ok r ∧
      r.min_distance_km = 0 ∧ r.collision_risk = "HIGH" ∧
      r.relative_velocity_km_s = 0) :=
  ⟨twoSatCatalog_A, by decide,
    C6_self_approach (CollisionDetector.make 10) scenarioModel twoSatCatalog
      "SAT-A" 4 5 0 0 satA twoSatCatalog_A (by decide)⟩

lemma length_filter_range_eq_card (n : ℕ) (p : ℕ → Prop) [DecidablePred p] :
    ((List.range n).filter (fun i => decide (p i))).length =
      ((Finset.range n).filter p).card := rfl

lemma mem_zipWith_dist_nonneg (p1 p2 : List Vec3) :
    ∀ x ∈ List.zipWith calculate_distance p1 p2, 0 ≤ x := by
  induction p1 generalizing p2 with
  | nil => intro x hx; simp at hx
  | cons a as ih =>
      intro x hx
      cases p2 with
      | nil => simp at hx
      | cons b bs =>
          rw [List.zipWith] at hx
          rcases List.mem_cons.mp hx with h | h
          · rw [h]; exact calculate_distance_nonneg a b
          · exact ih bs x h

lemma zipWith_dist_getD_nonneg (p1 p2 : List Vec3) (i : ℕ) :
    0 ≤ (List.zipWith calculate_distance p1 p2).getD i 0 := by
  rw [List.getD_eq_getElem?_getD]
  cases h : (List.zipWith calculate_distance p1 p2)[i]? with
  | none => simp
  | some x =>
      simp only [Option.getD_some]
      exact mem_zipWith_dist_nonneg p1 p2 x (List.getElem?_mem h)

/-- C7: the warning count equals the number of sample indices whose paired
distance is strictly below the configured warning distance, and with a
warning distance of 0 it is 0 since every Euclidean distance is
nonnegative. -/
theorem C7_warning_count (det : CollisionDetector)
    (at_ : EarthSatellite → ℝ → Vec3) (c : Catalog) (s1 s2 : String)
    (dur : ℝ) (pts : ℕ) (n1 n2 n3 : ℝ) (r : CloseApproachData)
    (h : (analyze_close_approach det at_ c s1 s2 dur pts n1 n2 n3).1 =
      AnalysisResult.ok r) :
    r.warning_periods = ((Finset.range r.all_distances.length).filter
        (fun i => r.all_distances.getD i 0 < det.warning_distance_km)).card ∧
    (det.warning_distance_km = 0 → r.warning_periods = 0) := by
  obtain ⟨p1, p2, h1, h2, hr⟩ :=
    analyze_cases det at_ c s1 s2 dur pts n1 n2 n3 r h
  subst hr
  constructor
  · rw [okData_warning_periods, okData_all_distances]
    exact length_filter_range_eq_card _ _
  · intro hw
    rw [okData_warning_periods, hw, List.length_eq_zero, List.filter_eq_nil_iff]
    intro i hi
    simp only [decide_eq_true_eq, not_lt]
    exact zipWith_dist_getD_nonneg p1 p2 i

/-- Witness for C7: the warning-count law applied at the concrete
scenario. -/
theorem C7_warning_count_witness :
    scenarioData.warning_periods =
      ((Finset.range scenarioData.all_distances.length).filter
        (fun i => scenarioData.all_distances.getD i 0 <
          (CollisionDetector.make 10).warning_distance_km)).card ∧
    ((CollisionDetector.make 10).warning_distance_km = 0 →
      scenarioData.warning_periods = 0) :=
  C7_warning_count (CollisionDetector.make 10) scenarioModel twoSatCatalog
    "SAT-A" "SAT-B" 4 5 0 0 0 scenarioData scenario_eval

lemma getD_map_range (f : ℕ → ℝ) (n i : ℕ) (h : i < n) :
    (((List.range n).map f).getD i 0) = f i := by
  rw [List.getD_eq_getElem?_getD, List.getElem?_map, List.getElem?_range h]
  rfl

/-- C2: in a non-error analysis, when the minimum-distance index is an
interior sample the reported relative velocity is the central difference of
the distance sequence over its two neighbouring samples divided by the
elapsed time between those two samples (the result's `times` field,
converted from hours to seconds), and when the minimum falls on a boundary
sample the reported relative velocity is zero. -/
theorem C2_relative_velocity (det : CollisionDetector)
    (at_ : EarthSatellite → ℝ → Vec3) (c : Catalog) (s1 s2 : String)
    (dur : ℝ) (pts : ℕ) (n1 n2 n3 : ℝ) (r : CloseApproachData)
    (h : (analyze_close_approach det at_ c s1 s2 dur pts n1 n2 n3).1 =
      AnalysisResult.ok r) :
    ((0 < np_argmin r.all_distances ∧
        np_argmin r.all_distances < r.all_distances.length - 1) →
      r.relative_velocity_km_s =
        |r.all_distances.getD (np_argmin r.all_distances + 1) 0 -
          r.all_distances.getD (np_argmin r.all_distances - 1) 0| /
          ((r.times.getD (np_argmin r.all_distances + 1) 0 -
            r.times.getD (np_argmin r.all_distances - 1) 0) * 3600)) ∧
    (¬(0 < np_argmin r.all_distances ∧
        np_argmin r.all_distances < r.all_distances.length - 1) →
      r.relative_velocity_km_s = 0) := by
  obtain ⟨p1, p2, h1, h2, hr⟩ :=
    analyze_cases det at_ c s1 s2 dur pts n1 n2 n3 r h
  subst hr
  rw [okData_velocity, okData_all_distances, okData_times]
  have hlen1 : p1.length = pts := generate_ok_length at_ c s1 dur pts n1 p1 h1
  have hlen2 : p2.length = pts := generate_ok_length at_ c s2 dur pts n2 p2 h2
  have hDlen : (List.zipWith calculate_distance p1 p2).length = pts := by
    rw [List.length_zipWith, hlen1, hlen2, min_self]
  constructor
  · intro hint
    obtain ⟨hi0, hilt⟩ := hint
    rw [if_pos ⟨hi0, hilt⟩]
    rw [hDlen] at hilt
    have hip1 : np_argmin (List.zipWith calculate_distance p1 p2) + 1 < pts := by
      omega
    have him1 : np_argmin (List.zipWith calculate_distance p1 p2) - 1 < pts := by
      omega
    rw [hlen1, getD_map_range _ _ _ hip1, getD_map_range _ _ _ him1]
    congr 1
    have hc1 : ((np_argmin (List.zipWith calculate_distance p1 p2) - 1 : ℕ) : ℝ)
        = (np_argmin (List.zipWith calculate_distance p1 p2) : ℝ) - 1 := by
      rw [Nat.cast_sub hi0]
      norm_num
    push_cast [hc1]
    ring
  · intro hno
    rw [if_neg ?_]
    rw [hDlen]
    rw [hDlen] at hno
    exact hno

/-- Witness for C2: the velocity law applied at the concrete scenario,
whose minimum-distance index 2 is interior. -/
theorem C2_relative_velocity_witness :
    (0 < np_argmin scenarioData.all_distances ∧
      np_argmin scenarioData.all_distances <
        scenarioData.all_distances.length - 1) ∧
    scenarioData.relative_velocity_km_s =
      |scenarioData.all_distances.getD
          (np_argmin scenarioData.all_distances + 1) 0 -
        scenarioData.all_distances.getD
          (np_argmin scenarioData.all_distances - 1) 0| /
        ((scenarioData.times.getD (np_argmin scenarioData.all_distances + 1) 0 -
          scenarioData.times.getD
            (np_argmin scenarioData.all_distances - 1) 0) * 3600) := by
  have hint : 0 < np_argmin scenarioData.all_distances ∧
      np_argmin scenarioData.all_distances <
        scenarioData.all_distances.length - 1 := by
    rw [show scenarioData.all_distances = [100, 50, 2, 60, 120] from rfl,
      scenario_argmin]
    norm_num
  exact ⟨hint, (C2_relative_velocity (CollisionDetector.make 10) scenarioModel
    twoSatCatalog "SAT-A" "SAT-B" 4 5 0 0 0 scenarioData scenario_eval).1 hint⟩

/-- C3 (counterexample): the claim that prediction fails with a
`PropagationError` when the requested time is far outside any validity
window is false on the code: no such check (or error kind) exists, and at a
time 1 000 000 hours — over a century — past the record's epoch,
`predict_position` returns a position instead of failing. -/
theorem C3_counterexample :
    predict_position (fun _ _ => (0, 0, 0)) twoSatCatalog "SAT-A"
      (satA.epoch + 1000000) = .ok (0, 0, 0) := rfl

/-- C3 (amended): position prediction never inspects the offset between the
requested time and the record's epoch — for every propagation model and
every catalogued name it returns the propagated position at every requested
time; only an unknown name fails (with a ValueError). -/
theorem C3_no_validity_bound (at_ : EarthSatellite → ℝ → Vec3) (c : Catalog)
    (name : String) (t : ℝ) (sat : EarthSatellite) (hc : c name = some sat) :
    predict_position at_ c name t = .ok (at_ sat t) := by
  unfold predict_position
  rw [hc]

/-- Witness for the amended C3, at a time far past the epoch. -/
theorem C3_no_validity_bound_witness :
    twoSatCatalog "SAT-A" = some satA ∧
    predict_position scenarioModel twoSatCatalog "SAT-A" 1000000 =
      .ok (scenarioModel satA 1000000) :=
  ⟨twoSatCatalog_A, C3_no_validity_bound scenarioModel twoSatCatalog "SAT-A"
    1000000 satA twoSatCatalog_A⟩

/-- C4 (counterexample): the two trajectories here are sampled at different
timestamps (their `generate_orbit_path` calls start at 0 h and 5 h), yet
the analysis returns a normal result dictionary rather than failing with
any mismatched-sampling error. -/
theorem C4_counterexample :
    (analyze_close_approach (CollisionDetector.make 10) scenarioModel
      twoSatCatalog "SAT-A" "SAT-B" 4 5 0 5 0).1.isError = false := by
  rw [analyze_eq_okData (CollisionDetector.make 10) scenarioModel
    twoSatCatalog "SAT-A" "SAT-B" 4 5 0 5 0 _ _
    (generate_ok_of_mem scenarioModel twoSatCatalog "SAT-A" 4 5 0 satA
      twoSatCatalog_A (by decide))
    (generate_ok_of_mem scenarioModel twoSatCatalog "SAT-B" 4 5 5 satB
      twoSatCatalog_B (by decide))]
  rfl

/-- C4 (amended): the analyzer takes names, resamples both trajectories
itself, and performs no timestamp-compatibility check — for any two
catalogued names and any two sampling instants, equal or not, it returns a
normal result whenever the sample count is nonzero. -/
theorem C4_no_sampling_check (det : CollisionDetector)
    (at_ : EarthSatellite → ℝ → Vec3) (c : Catalog) (s1 s2 : String)
    (dur : ℝ) (pts : ℕ) (n1 n2 n3 : ℝ) (sat1 sat2 : EarthSatellite)
    (hc1 : c s1 = some sat1) (hc2 : c s2 = some sat2) (h0 : pts ≠ 0) :
    ∃ r, (analyze_close_approach det at_ c s1 s2 dur pts n1 n2 n3).1 =
      AnalysisResult.ok r := by
  refine ⟨okData det s1 s2 dur pts n3
    ((linspace 0 dur pts).map (fun delta => at_ sat1 (n1 + delta)))
    ((linspace 0 dur pts).map (fun delta => at_ sat2 (n2 + delta))), ?_⟩
  rw [analyze_eq_okData det at_ c s1 s2 dur pts n1 n2 n3 _ _
    (generate_ok_of_mem at_ c s1 dur pts n1 sat1 hc1 h0)
    (generate_ok_of_mem at_ c s2 dur pts n2 sat2 hc2 h0)]

/-- Witness for the amended C4, with distinct sampling instants 0 h and
5 h. -/
theorem C4_no_sampling_check_witness :
    twoSatCatalog "SAT-A" = some satA ∧ twoSatCatalog "SAT-B" = some satB ∧
    (∃ r, (analyze_close_approach (CollisionDetector.make 10) scenarioModel
      twoSatCatalog "SAT-A" "SAT-B" 4 5 0 5 0).1 = AnalysisResult.ok r) :=
  ⟨twoSatCatalog_A, twoSatCatalog_B,
    C4_no_sampling_check (CollisionDetector.make 10) scenarioModel
      twoSatCatalog "SAT-A" "SAT-B" 4 5 0 5 0 satA satB
      twoSatCatalog_A twoSatCatalog_B (by decide)⟩

/-- C8 (counterexample): catalog reload does not destroy earlier records —
after loading `[satB]` into a catalog already holding `satA`, the name
SAT-A, absent from the new load, is still retrievable. -/
theorem C8_counterexample :
    load_tle_file (load_tle_file emptyCatalog [satA]) [satB] "SAT-A" =
      some satA := rfl

/-- C8 (amended): `load_tle_file` merges by name into the existing
dictionary — any name absent from the newly loaded records keeps exactly
the record (or absence) it had before the load. -/
theorem C8_load_merges (c : Catalog) (sats : List EarthSatellite)
    (name : String) (h : ∀ s ∈ sats, s.name ≠ name) :
    load_tle_file c sats name = c name := by
  induction sats generalizing c with
  | nil => rfl
  | cons s rest ih =>
      have hrest : ∀ x ∈ rest, x.name ≠ name :=
        fun x hx => h x (List.mem_cons_of_mem s hx)
      have hs : s.name ≠ name := h s (List.mem_cons_self s rest)
      unfold load_tle_file at ih ⊢
      rw [List.foldl_cons, ih (catInsert c s) hrest]
      unfold catInsert
      rw [if_neg (fun hn => hs hn.symm)]

/-- Witness for the amended C8: loading `[satB]` leaves SAT-A exactly as it
was before the load. -/
theorem C8_load_merges_witness :
    (∀ s ∈ [satB], s.name ≠ "SAT-A") ∧
    load_tle_file (load_tle_file emptyCatalog [satA]) [satB] "SAT-A" =
      load_tle_file emptyCatalog [satA] "SAT-A" :=
  ⟨by intro s hs; rw [List.mem_singleton] at hs; subst hs; decide,
   C8_load_merges (load_tle_file emptyCatalog [satA]) [satB] "SAT-A"
     (by intro s hs; rw [List.mem_singleton] at hs; subst hs; decide)⟩

/-- C9: position prediction is deterministic and free of hidden state —
identical `(catalog, name, time)` calls yield identical output, and the
output depends only on the record stored under the queried name and the
time: any catalog agreeing at that name, whatever its other entries, gives
the same output. -/
theorem C9_determinism (at_ : EarthSatellite → ℝ → Vec3) (c : Catalog)
    (name : String) (t : ℝ) :
    predict_position at_ c name t = predict_position at_ c name t ∧
    ∀ c' : Catalog, c name = c' name →
      predict_position at_ c name t = predict_position at_ c' name t := by
  refine ⟨rfl, fun c' hc => ?_⟩
  unfold predict_position
  rw [hc]

/-- Witness for C9: two catalogs differing in their other entries but
agreeing on SAT-A give the same prediction. -/
theorem C9_determinism_witness :
    twoSatCatalog "SAT-A" = load_tle_file emptyCatalog [satA] "SAT-A" ∧
    predict_position scenarioModel twoSatCatalog "SAT-A" 7 =
      predict_position scenarioModel (load_tle_file emptyCatalog [satA])
        "SAT-A" 7 :=
  ⟨rfl, (C9_determinism scenarioModel twoSatCatalog "SAT-A" 7).2
    (load_tle_file emptyCatalog [satA]) rfl⟩

/-- C10: when orbit-path generation for either named object fails
(including an unknown name), the analysis catches the exception and returns
the error dictionary — a result carrying only the message and none of the
numeric fields — and the detector state comes back unchanged. -/
theorem C10_generation_failure (det : CollisionDetector)
    (at_ : EarthSatellite → ℝ → Vec3) (c : Catalog) (s1 s2 : String)
    (dur : ℝ) (pts : ℕ) (n1 n2 n3 : ℝ)
    (h : (∃ e, generate_orbit_path at_ c s1 dur pts n1 = .error e) ∨
      (∃ e, generate_orbit_path at_ c s2 dur pts n2 = .error e)) :
    ∃ msg, analyze_close_approach det at_ c s1 s2 dur pts n1 n2 n3 =
      (AnalysisResult.error msg, det) := by
  rcases h with ⟨e, he⟩ | ⟨e, he⟩
  · exact ⟨_, analyze_error_left det at_ c s1 s2 dur pts n1 n2 n3 e he⟩
  · cases h1 : generate_orbit_path at_ c s1 dur pts n1 with
    | error e1 =>
        exact ⟨_, analyze_error_left det at_ c s1 s2 dur pts n1 n2 n3 e1 h1⟩
    | ok p1 =>
        exact ⟨_, analyze_error_right det at_ c s1 s2 dur pts n1 n2 n3 p1 e
          h1 he⟩

/-- Witness for C10: analysis of an unknown first object returns the error
dictionary and the unchanged detector. -/
theorem C10_generation_failure_witness :
    ∃ msg, analyze_close_approach (CollisionDetector.make 10) scenarioModel
      twoSatCatalog "NO-SUCH-SAT" "SAT-B" 4 5 0 0 0 =
        (AnalysisResult.error msg, CollisionDetector.make 10) :=
  C10_generation_failure (CollisionDetector.make 10) scenarioModel
    twoSatCatalog "NO-SUCH-SAT" "SAT-B" 4 5 0 0 0
    (Or.inl ⟨"Satellite NO-SUCH-SAT not found", rfl⟩)

end SatOrbit
